import Mathlib

/-!
Shallow embedding of the two FastAPI microservices in this repository:
the STT service (`stt-service/main.py`) and the TTS service
(`tts-service/main.py`).  External collaborators (the Whisper and XTTS
models, ffmpeg, librosa, the filesystem and the clock) are passed in as
explicit parameters: an `Option`/`Except` value stands for a call that may
raise, a `Bool` for a call whose only observable outcome is success or
failure.  Python floats are modelled as rationals, byte sizes and the
request counter as naturals, and side effects (temp files written, files
deleted) are recorded explicitly so the order of effects is visible.
-/

/-- Python `str.strip()` with no argument: drop leading and trailing
whitespace.  Implemented over the character list so that the kernel can
evaluate it on concrete strings (`String.trim` computes the same string
but is defined by well-founded recursion, which the kernel cannot
unfold). -/
def pyStrip (s : String) : String :=
  ⟨((s.data.dropWhile Char.isWhitespace).reverse.dropWhile
      Char.isWhitespace).reverse⟩

/-- Python `str.split()` with no argument: split on runs of whitespace
and drop empty pieces; `len(s.split())` is the word count. -/
def pyWordCount (s : String) : Nat :=
  ((s.data.splitOnP (fun c => c.isWhitespace)).filter (fun w => w ≠ [])).length

namespace STT

/-- Configuration of the STT service: `MAX_CONCURRENT_REQUESTS` and
`MAX_AUDIO_SIZE` from `stt-service/main.py` lines 33 and 36 (defaults 5
and 52428800; both are env-configurable, so the model keeps them
abstract). -/
structure STTConfig where
  maxConcurrent : Nat
  maxAudioSize : Nat
  deriving Repr, DecidableEq

/-- The parts of a FastAPI `UploadFile` the handler reads: the client
supplied filename and the client-reported size.  `size` is `Option Nat`
because FastAPI may report `None`; Python's truthiness test
`if audio.size` treats both `None` and `0` as false. -/
structure UploadFileM where
  filename : String
  size : Option Nat
  deriving Repr, DecidableEq

/-- The fields of the Whisper result dict that `transcribe_audio` reads:
`result["text"]` (a mandatory key), `result.get("language", ...)` and
`result.get("duration", ...)` (optional keys). -/
structure WhisperResult where
  text : String
  language : Option String
  duration : Option ℚ
  deriving Repr, DecidableEq

/-- The Pydantic response model `TranscriptionResponse`
(`stt-service/main.py` lines 47-51): exactly the four fields
`transcription`, `language`, `duration`, `processing_time`. -/
structure TranscriptionResponse where
  transcription : String
  language : String
  duration : ℚ
  processing_time : ℚ
  deriving Repr, DecidableEq

/-- The ways `transcribe_audio` can finish: the three explicit
`HTTPException`s (429, 413, 503), the catch-all 500 re-raise, or a
successful `TranscriptionResponse`. -/
inductive STTOutcome
  | rejected429
  | rejected413
  | noModel503
  | failure500
  | success (resp : TranscriptionResponse)
  deriving Repr, DecidableEq

/-- Observable result of one call of `transcribe_audio`: the outcome, the
value of the global `current_requests` after the call completes, the
largest value `current_requests` held during the call, and the temp-file
paths written (in order) before the call finished or raised. -/
structure STTCallResult where
  outcome : STTOutcome
  requestsAfter : Nat
  peakRequests : Nat
  filesWritten : List String
  deriving Repr, DecidableEq

/-- Python's `audio.size and audio.size > MAX_AUDIO_SIZE`
(`stt-service/main.py` line 159): `None` and `0` are falsy, so the check
fires only when the reported size is present, nonzero and strictly above
the limit. -/
def sizeExceeds (cfg : STTConfig) (size : Option Nat) : Bool :=
  match size with
  | none => false
  | some n => n ≠ 0 && n > cfg.maxAudioSize

/-- ASCII-lowercase of the filename suffix test
`audio.filename.lower().endswith(".wav")` (line 181).  Filenames are
ASCII in all inputs the claims touch, so `String.toLower` (ASCII
lowercasing) is faithful here. -/
def needsConversion (filename : String) : Bool :=
  !(filename.toLower.endsWith ".wav")

/-- `transcribe_audio` (`stt-service/main.py` lines 142-224) as a pure
function.  External effects are parameters:
* `reqs` — the global `current_requests` at entry;
* `loadResult` — what `await load_whisper_model()` does: `.error ()` if
  it raises, `.ok b` if it returns, with `b` the truthiness of the
  returned model;
* `fileId` — the `uuid.uuid4()` draw;
* `convOk` — the return value of `convert_audio_format` (which never
  raises, see `convert_audio_format` below; the code still wraps it in
  `try/except`);
* `transcribeRes` — `model.transcribe(audio_path)`: `none` if it raises;
* `procTime` — the measured `(datetime.now() - start_time).total_seconds()`.
The `finally: current_requests -= 1` runs on every path after the
increment at line 154; the 429 raise at line 152 happens before the
increment. -/
def transcribe_audio (cfg : STTConfig) (reqs : Nat)
    (audio : UploadFileM) (loadResult : Except Unit Bool) (fileId : String)
    (convOk : Bool) (transcribeRes : Option WhisperResult) (procTime : ℚ) :
    STTCallResult :=
  -- line 151: if current_requests >= MAX_CONCURRENT_REQUESTS: raise 429
  if reqs ≥ cfg.maxConcurrent then
    { outcome := .rejected429, requestsAfter := reqs, peakRequests := reqs
      filesWritten := [] }
  else
    -- line 154: current_requests += 1; the try body follows, and the
    -- finally clause restores the counter to `reqs` on every exit path.
    let peak := reqs + 1
    -- line 159: size check, before any temp file is written
    if sizeExceeds cfg audio.size then
      { outcome := .rejected413, requestsAfter := reqs, peakRequests := peak
        filesWritten := [] }
    else
      -- line 163: model = await load_whisper_model()
      match loadResult with
      | .error () =>
        -- the load raised; caught by `except Exception` at line 220 → 500
        { outcome := .failure500, requestsAfter := reqs, peakRequests := peak
          filesWritten := [] }
      | .ok modelTruthy =>
        if !modelTruthy then
          -- line 164-165: if not model: raise 503
          { outcome := .noModel503, requestsAfter := reqs, peakRequests := peak
            filesWritten := [] }
        else
          -- lines 168-175: build temp paths and write the upload
          let temp_input_path := "input_" ++ fileId ++ "_" ++ audio.filename
          let temp_output_path := "converted_" ++ fileId ++ ".wav"
          -- lines 178-185: convert when not a .wav; on success transcribe
          -- the converted file, otherwise the original
          let converted := needsConversion audio.filename && convOk
          let written :=
            if converted then [temp_input_path, temp_output_path]
            else [temp_input_path]
          -- line 190: result = model.transcribe(audio_path)
          match transcribeRes with
          | none =>
            { outcome := .failure500, requestsAfter := reqs
              peakRequests := peak, filesWritten := written }
          | some r =>
            -- lines 211-216: build the response
            { outcome := .success
                { transcription := pyStrip r.text
                  language := r.language.getD "unknown"
                  duration := r.duration.getD 0
                  processing_time := procTime }
              requestsAfter := reqs, peakRequests := peak
              filesWritten := written }

/-- `convert_audio_format` (`stt-service/main.py` lines 103-124) with its
two external calls as parameters: `ffmpegRun` is the ffmpeg transcode
(`.error` = raised), `librosaRun` is the librosa load + write fallback.
Returns the function's boolean result together with whether the librosa
fallback was attempted.  The function is total: every exception of either
call is caught, so nothing propagates to the caller. -/
def convert_audio_format (ffmpegRun : Except String Unit)
    (librosaRun : Except String Unit) : Bool × Bool :=
  match ffmpegRun with
  | .ok () => (true, false)
  | .error _ =>
    match librosaRun with
    | .ok () => (true, true)
    | .error _ => (false, true)

end STT

/-- A directory entry as the cleanup loops see it: its name, whether
`os.path.isfile` holds, and its `os.path.getctime` value (seconds). -/
structure FSEntry where
  name : String
  isFile : Bool
  ctime : ℚ
  deriving Repr, DecidableEq

/-- The shared cleanup loop body (`stt-service/main.py` lines 131-138,
`tts-service/main.py` lines 132-139): for each directory entry that is a
regular file, delete it when `current_time - getctime > threshold`;
everything else is kept.  Returns the entries that remain. -/
def cleanupLoop (threshold now : ℚ) : List FSEntry → List FSEntry
  | [] => []
  | e :: rest =>
    if e.isFile ∧ now - e.ctime > threshold then cleanupLoop threshold now rest
    else e :: cleanupLoop threshold now rest

/-- `cleanup_temp_files` of the STT service: threshold 1800 seconds
(30 minutes, line 136). -/
def cleanup_temp_files (now : ℚ) (entries : List FSEntry) : List FSEntry :=
  cleanupLoop 1800 now entries

/-- `cleanup_old_files` of the TTS service: threshold 3600 seconds
(1 hour, line 137). -/
def cleanup_old_files (now : ℚ) (entries : List FSEntry) : List FSEntry :=
  cleanupLoop 3600 now entries

/-- State of the STT loader globals `whisper_model` (modelled as an
`Option Nat`, a model handle or `None`) and `model_loading`. -/
structure STTLoadState where
  whisper_model : Option Nat
  model_loading : Bool
  deriving Repr, DecidableEq

/-- `load_whisper_model` (`stt-service/main.py` lines 65-91) as an atomic
call.  `other` is the model the in-progress load (if any) leaves in
`whisper_model` by the time the spin-wait `while model_loading:
await asyncio.sleep(0.1)` observes `model_loading == False`; `fresh` is
what `whisper.load_model` would produce if this call invokes it (`none` =
it raises, and the exception propagates after `finally` clears
`model_loading`).  Returns (returned model or `none` on raise, new state,
whether this call invoked the loader). -/
def load_whisper_model (s : STTLoadState) (other : Option Nat)
    (fresh : Option Nat) : Option Nat × STTLoadState × Bool :=
  match s.whisper_model with
  | some m => (some m, s, false)            -- line 69: cached, return it
  | none =>
    if s.model_loading then
      -- lines 72-76: spin-wait for the other load, then return
      -- whisper_model as the other load left it
      (other, ⟨other, false⟩, false)
    else
      -- lines 78-91: perform the load under model_loading = True
      match fresh with
      | some m => (some m, ⟨some m, false⟩, true)
      | none => (none, ⟨none, false⟩, true)

/-- State of the TTS loader globals `tts_model`, `model_loading`,
`model_loaded` (`tts-service/main.py` lines 45-47). -/
structure TTSLoadState where
  tts_model : Option Nat
  model_loading : Bool
  model_loaded : Bool
  deriving Repr, DecidableEq

/-- `load_tts_model` (`tts-service/main.py` lines 85-116) as an atomic
call.  The function returns no value; `fresh` is what `TTS(...)` would
produce if invoked (`none` = it raises; the exception propagates after
`finally` clears `model_loading`).  Returns (new state, whether this call
invoked the loader).  Note line 89: `if model_loaded or model_loading:
return` — a call during an in-progress load returns immediately, it does
not wait. -/
def load_tts_model (s : TTSLoadState) (fresh : Option Nat) :
    TTSLoadState × Bool :=
  if s.model_loaded || s.model_loading then (s, false)
  else
    match fresh with
    | some m => (⟨some m, false, true⟩, true)
    | none => (⟨s.tts_model, false, s.model_loaded⟩, true)

namespace TTS

/-- The fields of the Pydantic `VoiceSettings` the handler reads.
`language` has pattern `^(en|ru|auto)$` with default `None`. -/
structure VoiceSettings where
  speaker : Option String
  speed : ℚ
  emotion : String
  language : Option String
  deriving Repr, DecidableEq

/-- The Pydantic `TTSRequest` (`tts-service/main.py` lines 59-63):
`voice_settings` defaults to a `VoiceSettings()` object but may be
explicitly `null`, hence `Option`; `audio_format` is `wav` or `mp3`. -/
structure TTSRequestM where
  text : String
  voice_settings : Option VoiceSettings
  audio_format : String
  language : Option String
  deriving Repr, DecidableEq

/-- The Pydantic `TTSResponse` (lines 65-70). -/
structure TTSResponseM where
  audio_url : String
  duration : Option ℚ
  file_size : Nat
  status : String
  message : String
  deriving Repr, DecidableEq

/-- Python truthiness of an `Optional[str]`: `None` and the empty string
are falsy. -/
def strTruthy : Option String → Bool
  | none => false
  | some s => s ≠ ""

/-- Python `str.lower()` restricted to the character ranges whose
lowercase forms the heuristic's two sets can contain: ASCII `A`-`Z`,
Cyrillic `А`-`Я` (U+0410-U+042F, lowered by +0x20) and `Ё` (U+0401,
lowered to `ё` U+0451).  Any other character lowers to something outside
both sets, so leaving it unchanged preserves both counts. -/
def pyLower (c : Char) : Char :=
  if c.val ≥ 0x41 ∧ c.val ≤ 0x5A then Char.ofNat (c.toNat + 0x20)
  else if c.val ≥ 0x410 ∧ c.val ≤ 0x42F then Char.ofNat (c.toNat + 0x20)
  else if c.val = 0x401 then Char.ofNat 0x451
  else c

/-- The set literal at line 177: the 32 lowercase Cyrillic letters
`а`..`я` plus `ё`. -/
def russian_chars : List Char := "абвгдеёжзийклмнопрстуфхцчшщъыьэюя".toList

/-- The set literal at line 178: the 26 lowercase Latin letters. -/
def english_chars : List Char := "abcdefghijklmnopqrstuvwxyz".toList

/-- `sum(1 for c in clean_text.lower() if c in russian_chars)`
(line 181). -/
def rus_count (cleanText : String) : Nat :=
  (cleanText.toList.map pyLower).countP (fun c => russian_chars.contains c)

/-- `sum(1 for c in clean_text.lower() if c in english_chars)`
(line 182). -/
def eng_count (cleanText : String) : Nat :=
  (cleanText.toList.map pyLower).countP (fun c => english_chars.contains c)

/-- The language-selection chain of `generate_speech`
(`tts-service/main.py` lines 166-188): `request.language` (if truthy),
else `request.voice_settings.language` (if the settings object and the
field are truthy), else the character-frequency heuristic on the nonempty
stripped text, else the configured default. -/
def chooseLanguage (defaultLang : String) (req : TTSRequestM)
    (cleanText : String) : String :=
  if strTruthy req.language then req.language.getD defaultLang
  else
    match req.voice_settings with
    | some vs =>
      if strTruthy vs.language then vs.language.getD defaultLang
      else if cleanText ≠ "" then
        if rus_count cleanText > eng_count cleanText then "ru" else "en"
      else defaultLang
    | none =>
      if cleanText ≠ "" then
        if rus_count cleanText > eng_count cleanText then "ru" else "en"
      else defaultLang

/-- The ways `generate_speech` can finish. -/
inductive TTSOutcome
  | notLoaded503
  | emptyText400
  | failure500
  | success (resp : TTSResponseM)
  deriving Repr, DecidableEq

/-- Observable result of one call of `generate_speech`: outcome, the
loader globals after the call (the handler never assigns them, so they
pass through unchanged), the output files created, and the language
passed to `tts_to_file` (`none` when the call was rejected before the
language was chosen). -/
structure TTSCallResult where
  outcome : TTSOutcome
  stateAfter : TTSLoadState
  filesCreated : List String
  languageUsed : Option String
  deriving Repr, DecidableEq

/-- `generate_speech` (`tts-service/main.py` lines 143-254) as a pure
function.  External effects as parameters: `fileId` — the `uuid.uuid4()`
draw; `synthOk` — whether `tts_model.tts_to_file` succeeds (any of the
speaker-selection branches, all of which write `output_path`; on raise,
the `except` at line 252 turns it into a 500); `sizeAt` — what
`os.path.getsize(output_path)` returns after synthesis. -/
def generate_speech (s : TTSLoadState) (defaultLang : String)
    (req : TTSRequestM) (fileId : String) (synthOk : Bool) (sizeAt : Nat) :
    TTSCallResult :=
  -- line 148: if not model_loaded or tts_model is None: raise 503
  if !s.model_loaded || s.tts_model = none then
    { outcome := .notLoaded503, stateAfter := s, filesCreated := []
      languageUsed := none }
  -- line 151: if not request.text.strip(): raise 400
  else if pyStrip req.text = "" then
    { outcome := .emptyText400, stateAfter := s, filesCreated := []
      languageUsed := none }
  else
    -- lines 156-158: filename = "tts_" + file_id + "." + audio_format
    let filename := "tts_" ++ fileId ++ "." ++ req.audio_format
    let clean_text := pyStrip req.text
    -- lines 166-190: language selection
    let language := chooseLanguage defaultLang req clean_text
    -- lines 199-231: tts_to_file writes output_path (or raises)
    if synthOk then
      -- line 234: file_size = os.path.getsize(output_path)
      -- lines 238-239: estimated duration from the word count
      let word_count := pyWordCount clean_text
      { outcome := .success
          { audio_url := "/audio/" ++ filename
            duration := some ((word_count : ℚ) / 150 * 60)
            file_size := sizeAt
            status := "success"
            message := "Speech generated successfully" }
        stateAfter := s, filesCreated := [filename]
        languageUsed := some language }
    else
      { outcome := .failure500, stateAfter := s, filesCreated := []
        languageUsed := some language }

end TTS

/-! ## Helper lemmas shared by the claim proofs -/

/-- On every path of `transcribe_audio` the `finally` clause restores
`current_requests` to its value at entry (for a rejected request it was
never incremented). -/
theorem transcribe_requestsAfter (cfg : STT.STTConfig) (reqs : Nat)
    (audio : STT.UploadFileM) (loadResult : Except Unit Bool) (fileId : String)
    (convOk : Bool) (transcribeRes : Option STT.WhisperResult) (procTime : ℚ) :
    (STT.transcribe_audio cfg reqs audio loadResult fileId convOk transcribeRes
      procTime).requestsAfter = reqs := by
  simp only [STT.transcribe_audio]
  repeat' split
  all_goals rfl

/-- An admitted call holds the counter at `reqs + 1` for its whole
duration, whatever the body does. -/
theorem transcribe_peak_admitted (cfg : STT.STTConfig) (reqs : Nat)
    (audio : STT.UploadFileM) (loadResult : Except Unit Bool) (fileId : String)
    (convOk : Bool) (transcribeRes : Option STT.WhisperResult) (procTime : ℚ)
    (h : reqs < cfg.maxConcurrent) :
    (STT.transcribe_audio cfg reqs audio loadResult fileId convOk transcribeRes
      procTime).peakRequests = reqs + 1 := by
  simp only [STT.transcribe_audio]
  rw [if_neg (by omega)]
  repeat' split
  all_goals rfl

/-- An admitted call never finishes with the 429 outcome. -/
theorem transcribe_admitted_not_429 (cfg : STT.STTConfig) (reqs : Nat)
    (audio : STT.UploadFileM) (loadResult : Except Unit Bool) (fileId : String)
    (convOk : Bool) (transcribeRes : Option STT.WhisperResult) (procTime : ℚ)
    (h : reqs < cfg.maxConcurrent) :
    (STT.transcribe_audio cfg reqs audio loadResult fileId convOk transcribeRes
      procTime).outcome ≠ STT.STTOutcome.rejected429 := by
  simp only [STT.transcribe_audio]
  rw [if_neg (by omega)]
  repeat' split
  all_goals simp

/-- A call whose size check passes never finishes with the 413
outcome. -/
theorem transcribe_sizeok_not_413 (cfg : STT.STTConfig) (reqs : Nat)
    (audio : STT.UploadFileM) (loadResult : Except Unit Bool) (fileId : String)
    (convOk : Bool) (transcribeRes : Option STT.WhisperResult) (procTime : ℚ)
    (hs : STT.sizeExceeds cfg audio.size = false) :
    (STT.transcribe_audio cfg reqs audio loadResult fileId convOk transcribeRes
      procTime).outcome ≠ STT.STTOutcome.rejected413 := by
  simp only [STT.transcribe_audio]
  split
  · simp
  · rw [if_neg (by simp [hs])]
    repeat' split
    all_goals simp

/-- The Boolean size test fires exactly when the reported size is
present, nonzero and strictly above the limit. -/
theorem sizeExceeds_iff (cfg : STT.STTConfig) (size : Option Nat) :
    STT.sizeExceeds cfg size = true ↔
      ∃ n, size = some n ∧ n ≠ 0 ∧ cfg.maxAudioSize < n := by
  rcases size with _ | n <;> simp [STT.sizeExceeds]

/-! ## Claim C1 -/

/-- Claim C1 as stated is false: with `MAX_CONCURRENT_REQUESTS = 5` and
`current_requests = 5` the counter is not strictly above the threshold,
yet the request is rejected with 429 instead of being admitted — line 151
tests `current_requests >= MAX_CONCURRENT_REQUESTS`, not `>`. -/
theorem C1_counterexample :
    (STT.transcribe_audio ⟨5, 52428800⟩ 5 ⟨"a.wav", some 10⟩ (.ok true) "id"
      true (some ⟨"hi", some "en", some 1⟩) 0).outcome =
      STT.STTOutcome.rejected429 ∧ ¬ ((5 : Nat) > 5) :=
  ⟨rfl, by decide⟩

/-- Claim C1 (amended): the admission gate rejects with HTTP 429 exactly
when `current_requests` is at or above `MAX_CONCURRENT_REQUESTS`; a
rejected request leaves `current_requests` unchanged and writes no temp
file. -/
theorem C1_admission_gate (cfg : STT.STTConfig) (reqs : Nat)
    (audio : STT.UploadFileM) (loadResult : Except Unit Bool) (fileId : String)
    (convOk : Bool) (transcribeRes : Option STT.WhisperResult) (procTime : ℚ) :
    ((STT.transcribe_audio cfg reqs audio loadResult fileId convOk transcribeRes
        procTime).outcome = STT.STTOutcome.rejected429 ↔
      cfg.maxConcurrent ≤ reqs)
    ∧ (cfg.maxConcurrent ≤ reqs →
        STT.transcribe_audio cfg reqs audio loadResult fileId convOk
          transcribeRes procTime =
          ⟨STT.STTOutcome.rejected429, reqs, reqs, []⟩) := by
  have hrej : cfg.maxConcurrent ≤ reqs →
      STT.transcribe_audio cfg reqs audio loadResult fileId convOk
        transcribeRes procTime =
        ⟨STT.STTOutcome.rejected429, reqs, reqs, []⟩ := by
    intro h
    simp only [STT.transcribe_audio]
    rw [if_pos h]
  refine ⟨⟨fun hout => ?_, fun h => by rw [hrej h]⟩, hrej⟩
  by_contra hlt
  push_neg at hlt
  exact transcribe_admitted_not_429 cfg reqs audio loadResult fileId convOk
    transcribeRes procTime hlt hout

/-- Witness for `C1_admission_gate` at a concrete rejected call. -/
theorem C1_admission_gate_witness :
    STT.transcribe_audio ⟨5, 52428800⟩ 7 ⟨"b.mp3", none⟩ (.ok true) "id" true
        none 0 =
      ⟨STT.STTOutcome.rejected429, 7, 7, []⟩ :=
  (C1_admission_gate ⟨5, 52428800⟩ 7 ⟨"b.mp3", none⟩ (.ok true) "id" true
    none 0).2 (by decide)

/-! ## Claim C8 -/

/-- Claim C8: the counter is balanced — every completed call leaves
`current_requests` exactly as it found it; an admitted call holds it at
`reqs + 1` throughout (one increment on entry, one decrement on exit), a
rejected call never touches it; hence, starting at or below
`MAX_CONCURRENT_REQUESTS`, the counter never exceeds
`MAX_CONCURRENT_REQUESTS` during a sequentially executed call. -/
theorem C8_counter_balance (cfg : STT.STTConfig) (reqs : Nat)
    (audio : STT.UploadFileM) (loadResult : Except Unit Bool) (fileId : String)
    (convOk : Bool) (transcribeRes : Option STT.WhisperResult) (procTime : ℚ) :
    ((STT.transcribe_audio cfg reqs audio loadResult fileId convOk transcribeRes
        procTime).requestsAfter = reqs)
    ∧ (reqs < cfg.maxConcurrent →
        (STT.transcribe_audio cfg reqs audio loadResult fileId convOk
          transcribeRes procTime).peakRequests = reqs + 1)
    ∧ (cfg.maxConcurrent ≤ reqs →
        (STT.transcribe_audio cfg reqs audio loadResult fileId convOk
          transcribeRes procTime).peakRequests = reqs)
    ∧ (reqs ≤ cfg.maxConcurrent →
        (STT.transcribe_audio cfg reqs audio loadResult fileId convOk
          transcribeRes procTime).peakRequests ≤ cfg.maxConcurrent) := by
  have hafter := transcribe_requestsAfter cfg reqs audio loadResult fileId
    convOk transcribeRes procTime
  have hadm := transcribe_peak_admitted cfg reqs audio loadResult fileId
    convOk transcribeRes procTime
  have hrej : cfg.maxConcurrent ≤ reqs →
      (STT.transcribe_audio cfg reqs audio loadResult fileId convOk
        transcribeRes procTime).peakRequests = reqs := by
    intro h
    simp only [STT.transcribe_audio]
    rw [if_pos h]
  refine ⟨hafter, hadm, hrej, fun hle => ?_⟩
  by_cases h : reqs < cfg.maxConcurrent
  · rw [hadm h]; omega
  · rw [hrej (by omega)]; omega

/-- Witness for `C8_counter_balance` at a concrete admitted call. -/
theorem C8_counter_balance_witness :
    ((STT.transcribe_audio ⟨5, 52428800⟩ 2 ⟨"a.wav", some 10⟩ (.ok true) "id"
        true (some ⟨"hi", some "en", some 1⟩) 0).requestsAfter = 2)
    ∧ ((2 : Nat) < 5 →
        (STT.transcribe_audio ⟨5, 52428800⟩ 2 ⟨"a.wav", some 10⟩ (.ok true)
          "id" true (some ⟨"hi", some "en", some 1⟩) 0).peakRequests = 2 + 1)
    ∧ ((5 : Nat) ≤ 2 →
        (STT.transcribe_audio ⟨5, 52428800⟩ 2 ⟨"a.wav", some 10⟩ (.ok true)
          "id" true (some ⟨"hi", some "en", some 1⟩) 0).peakRequests = 2)
    ∧ ((2 : Nat) ≤ 5 →
        (STT.transcribe_audio ⟨5, 52428800⟩ 2 ⟨"a.wav", some 10⟩ (.ok true)
          "id" true (some ⟨"hi", some "en", some 1⟩) 0).peakRequests ≤ 5) :=
  C8_counter_balance ⟨5, 52428800⟩ 2 ⟨"a.wav", some 10⟩ (.ok true) "id" true
    (some ⟨"hi", some "en", some 1⟩) 0

/-! ## Claim C9 -/

/-- Claim C9: for an admitted call, the 413 rejection fires exactly when
the client-reported size is present, nonzero and strictly above
`MAX_AUDIO_SIZE` (Python truthiness makes `None` and `0` skip the check
regardless of the bytes actually uploaded), and a 413-rejected call
writes no temp file. -/
theorem C9_size_gate (cfg : STT.STTConfig) (reqs : Nat)
    (audio : STT.UploadFileM) (loadResult : Except Unit Bool) (fileId : String)
    (convOk : Bool) (transcribeRes : Option STT.WhisperResult) (procTime : ℚ)
    (hadm : reqs < cfg.maxConcurrent) :
    ((STT.transcribe_audio cfg reqs audio loadResult fileId convOk transcribeRes
        procTime).outcome = STT.STTOutcome.rejected413 ↔
      ∃ n, audio.size = some n ∧ n ≠ 0 ∧ cfg.maxAudioSize < n)
    ∧ (STT.sizeExceeds cfg audio.size = true →
        STT.transcribe_audio cfg reqs audio loadResult fileId convOk
          transcribeRes procTime =
          ⟨STT.STTOutcome.rejected413, reqs, reqs + 1, []⟩) := by
  have h413 : STT.sizeExceeds cfg audio.size = true →
      STT.transcribe_audio cfg reqs audio loadResult fileId convOk
        transcribeRes procTime =
        ⟨STT.STTOutcome.rejected413, reqs, reqs + 1, []⟩ := by
    intro hs
    simp only [STT.transcribe_audio]
    rw [if_neg (by omega), if_pos hs]
  constructor
  · rw [← sizeExceeds_iff]
    constructor
    · intro hout
      by_contra hs
      exact transcribe_sizeok_not_413 cfg reqs audio loadResult fileId convOk
        transcribeRes procTime (by simpa using hs) hout
    · intro hs
      rw [h413 hs]
  · exact h413

/-- Witness for `C9_size_gate`: a 60 MB reported size against the 50 MB
default limit is rejected with 413 before any write. -/
theorem C9_size_gate_witness :
    ((STT.transcribe_audio ⟨5, 52428800⟩ 0 ⟨"big.mp3", some 62914560⟩
        (.ok true) "id" true none 0).outcome = STT.STTOutcome.rejected413 ↔
      ∃ n, (some 62914560 : Option Nat) = some n ∧ n ≠ 0 ∧ 52428800 < n)
    ∧ (STT.sizeExceeds ⟨5, 52428800⟩ (some 62914560) = true →
        STT.transcribe_audio ⟨5, 52428800⟩ 0 ⟨"big.mp3", some 62914560⟩
          (.ok true) "id" true none 0 =
          ⟨STT.STTOutcome.rejected413, 0, 0 + 1, []⟩) :=
  C9_size_gate ⟨5, 52428800⟩ 0 ⟨"big.mp3", some 62914560⟩ (.ok true) "id"
    true none 0 (by decide)

/-! ## Claim C6 -/

/-- Claim C6: every successful response of `/transcribe` carries exactly
the four fields of `TranscriptionResponse`, with `transcription` the
stripped model text, `language` the model language or `"unknown"` when
absent, and `duration` the model duration or `0` when absent. -/
theorem C6_success_response (cfg : STT.STTConfig) (reqs : Nat)
    (audio : STT.UploadFileM) (loadResult : Except Unit Bool) (fileId : String)
    (convOk : Bool) (transcribeRes : Option STT.WhisperResult) (procTime : ℚ)
    (resp : STT.TranscriptionResponse)
    (hs : (STT.transcribe_audio cfg reqs audio loadResult fileId convOk
      transcribeRes procTime).outcome = STT.STTOutcome.success resp) :
    ∃ r, transcribeRes = some r ∧
      resp = ⟨pyStrip r.text, r.language.getD "unknown", r.duration.getD 0,
        procTime⟩ := by
  rcases transcribeRes with _ | r
  · exfalso
    simp only [STT.transcribe_audio] at hs
    repeat' split at hs
    all_goals simp_all
  · refine ⟨r, rfl, ?_⟩
    simp only [STT.transcribe_audio] at hs
    repeat' split at hs
    all_goals simp_all

/-- Witness for `C6_success_response` at a concrete successful call. -/
theorem C6_success_response_witness :
    ∃ r, (some (⟨" hi there ", none, none⟩ : STT.WhisperResult) =
        some r) ∧
      (⟨"hi there", "unknown", 0, 2⟩ : STT.TranscriptionResponse) =
        ⟨pyStrip r.text, r.language.getD "unknown", r.duration.getD 0, 2⟩ :=
  C6_success_response ⟨5, 52428800⟩ 0 ⟨"a.wav", some 10⟩ (.ok true) "id" true
    (some ⟨" hi there ", none, none⟩) 2
    ⟨"hi there", "unknown", 0, 2⟩ (by decide)

/-! ## Claim C4 -/

/-- Claim C4: `convert_audio_format` attempts the librosa fallback
exactly when the ffmpeg transcode raises, returns `true` exactly when one
of the two succeeds, and is total — every exception of either external
call is handled, so none propagates to the caller. -/
theorem C4_convert_fallback (ffmpegRun librosaRun : Except String Unit) :
    ((STT.convert_audio_format ffmpegRun librosaRun).1 = true ↔
      (∃ u, ffmpegRun = .ok u) ∨ (∃ u, librosaRun = .ok u))
    ∧ ((STT.convert_audio_format ffmpegRun librosaRun).2 = true ↔
      ∃ e, ffmpegRun = .error e)
    ∧ ((∃ e, ffmpegRun = .error e) → (∃ e, librosaRun = .error e) →
      (STT.convert_audio_format ffmpegRun librosaRun).1 = false) := by
  rcases ffmpegRun with e | u <;> rcases librosaRun with e2 | u2 <;>
    simp [STT.convert_audio_format]

/-- Witness for `C4_convert_fallback` when both paths fail. -/
theorem C4_convert_fallback_witness :
    ((STT.convert_audio_format (.error "boom") (.error "boom2")).1 = true ↔
      (∃ u, (.error "boom" : Except String Unit) = .ok u) ∨
        (∃ u, (.error "boom2" : Except String Unit) = .ok u))
    ∧ ((STT.convert_audio_format (.error "boom") (.error "boom2")).2 = true ↔
      ∃ e, (.error "boom" : Except String Unit) = .error e)
    ∧ ((∃ e, (.error "boom" : Except String Unit) = .error e) →
      (∃ e, (.error "boom2" : Except String Unit) = .error e) →
      (STT.convert_audio_format (.error "boom") (.error "boom2")).1 = false) :=
  C4_convert_fallback (.error "boom") (.error "boom2")

/-! ## Claim C3 -/

/-- The cleanup loop is the filter keeping exactly the entries that are
not (regular file ∧ strictly older than the threshold). -/
theorem cleanupLoop_eq_filter (threshold now : ℚ) (l : List FSEntry) :
    cleanupLoop threshold now l =
      l.filter (fun e => !(e.isFile && decide (now - e.ctime > threshold))) := by
  induction l with
  | nil => rfl
  | cons e rest ih =>
    by_cases h : e.isFile = true ∧ now - e.ctime > threshold
    · rw [cleanupLoop, if_pos h]
      rw [List.filter_cons_of_neg (by simp [h.1, h.2])]
      exact ih
    · rw [cleanupLoop, if_neg h]
      rw [List.filter_cons_of_pos (by
        rcases Decidable.not_and_iff_or_not.mp h with h1 | h2 <;> simp_all)]
      rw [ih]

/-- Claim C3: temp-file eviction is purely age-based — in both services a
directory entry is deleted by the cleanup task exactly when it is a
regular file whose age `now - ctime` strictly exceeds the threshold
(1800 s for the STT service, 3600 s for the TTS service); entries at or
below the threshold and non-regular-file entries survive. -/
theorem C3_cleanup_age_based (now : ℚ) (entries : List FSEntry) (e : FSEntry) :
    (e ∈ cleanup_temp_files now entries ↔
      e ∈ entries ∧ ¬(e.isFile = true ∧ now - e.ctime > 1800))
    ∧ (e ∈ cleanup_old_files now entries ↔
      e ∈ entries ∧ ¬(e.isFile = true ∧ now - e.ctime > 3600)) := by
  have h1 : cleanup_temp_files now entries =
      entries.filter (fun x => !(x.isFile && decide (now - x.ctime > 1800))) :=
    cleanupLoop_eq_filter 1800 now entries
  have h2 : cleanup_old_files now entries =
      entries.filter (fun x => !(x.isFile && decide (now - x.ctime > 3600))) :=
    cleanupLoop_eq_filter 3600 now entries
  have key : ∀ th : ℚ, ((!(e.isFile && decide (now - e.ctime > th))) = true ↔
      ¬(e.isFile = true ∧ now - e.ctime > th)) := by
    intro th
    cases hf : e.isFile <;> by_cases hp : now - e.ctime > th <;> simp [hf, hp]
  constructor
  · rw [h1]
    simp only [List.mem_filter]
    exact and_congr_right fun _ => key 1800
  · rw [h2]
    simp only [List.mem_filter]
    exact and_congr_right fun _ => key 3600

/-! ## Claim C5 -/

/-- Claim C5 as stated is false for the TTS service: with no model
loaded and a load in progress (`tts_model = None`, `model_loading =
True`, `model_loaded = False`), a call of `load_tts_model` returns
immediately — the state still shows the load in progress and no model —
instead of waiting for the in-progress load and returning its result
(line 89: `if model_loaded or model_loading: return`). -/
theorem C5_counterexample :
    load_tts_model ⟨none, true, false⟩ (some 1) = (⟨none, true, false⟩, false)
    ∧ (load_tts_model ⟨none, true, false⟩ (some 1)).1.model_loading = true
    ∧ (load_tts_model ⟨none, true, false⟩ (some 1)).1.tts_model = none :=
  ⟨rfl, rfl, rfl⟩

/-- Claim C5 (amended): model loading is lazy and one-time in both
services — once loaded, a call returns without invoking the loader and
leaves the cached model unchanged, and a call during an in-progress load
never starts a second load; but only the STT service spin-waits for the
in-progress load and returns its result, while the TTS service returns
immediately without waiting. -/
theorem C5_lazy_loading (s : STTLoadState) (t : TTSLoadState) (m : Nat)
    (other fresh freshT : Option Nat) :
    (s.whisper_model = some m →
      load_whisper_model s other fresh = (some m, s, false))
    ∧ (s.whisper_model = none → s.model_loading = true →
      load_whisper_model s other fresh = (other, ⟨other, false⟩, false))
    ∧ (t.model_loaded = true → load_tts_model t freshT = (t, false))
    ∧ (t.model_loading = true → load_tts_model t freshT = (t, false)) := by
  refine ⟨fun h => ?_, fun h1 h2 => ?_, fun h => ?_, fun h => ?_⟩
  · rcases s with ⟨mo, lo⟩
    cases h
    rfl
  · rcases s with ⟨mo, lo⟩
    cases h1
    cases h2
    rfl
  · rw [load_tts_model.eq_def, if_pos (by simp [h])]
  · rw [load_tts_model.eq_def, if_pos (by simp [h])]

/-- Witness for `C5_lazy_loading`: a cached STT model is returned as is,
a loading STT call waits, a loaded or loading TTS call returns at
once. -/
theorem C5_lazy_loading_witness :
    ((some 3 : Option Nat) = some 3 →
      load_whisper_model ⟨some 3, false⟩ none (some 9) =
        (some 3, ⟨some 3, false⟩, false))
    ∧ ((some 3 : Option Nat) = none → false = true →
      load_whisper_model ⟨some 3, false⟩ none (some 9) =
        (none, ⟨none, false⟩, false))
    ∧ (true = true → load_tts_model ⟨some 4, false, true⟩ (some 9) =
        (⟨some 4, false, true⟩, false))
    ∧ (false = true → load_tts_model ⟨some 4, false, true⟩ (some 9) =
        (⟨some 4, false, true⟩, false)) :=
  C5_lazy_loading ⟨some 3, false⟩ ⟨some 4, false, true⟩ 3 none (some 9)
    (some 9)

/-! ## Claim C2 -/

/-- Claim C2: when the TTS request carries no language (neither
`request.language` nor `voice_settings.language` is a truthy value), the
language passed to synthesis is the character-frequency heuristic over
the stripped text — `ru` exactly when the count of lowercase Cyrillic
characters (`а`..`я` plus `ё`) strictly exceeds the count of lowercase
Latin characters (`a`..`z`) in the lowercased text, `en` otherwise, ties
included; a truthy `request.language` takes precedence over
`voice_settings.language`, which takes precedence over the heuristic. -/
theorem C2_language_selection (s : TTSLoadState) (defaultLang : String)
    (req : TTS.TTSRequestM) (fileId : String) (synthOk : Bool) (sizeAt : Nat)
    (hl : s.model_loaded = true) (hm : s.tts_model ≠ none)
    (ht : pyStrip req.text ≠ "") :
    ((TTS.generate_speech s defaultLang req fileId synthOk
        sizeAt).languageUsed =
      some (TTS.chooseLanguage defaultLang req (pyStrip req.text)))
    ∧ (TTS.strTruthy req.language = false →
       (∀ vs, req.voice_settings = some vs →
         TTS.strTruthy vs.language = false) →
       TTS.chooseLanguage defaultLang req (pyStrip req.text) =
         (if TTS.rus_count (pyStrip req.text) > TTS.eng_count (pyStrip req.text)
          then "ru" else "en"))
    ∧ (∀ l, req.language = some l → l ≠ "" →
       TTS.chooseLanguage defaultLang req (pyStrip req.text) = l)
    ∧ (∀ vs l, TTS.strTruthy req.language = false →
       req.voice_settings = some vs → vs.language = some l → l ≠ "" →
       TTS.chooseLanguage defaultLang req (pyStrip req.text) = l) := by
  refine ⟨?_, fun h1 h2 => ?_, fun l hsome hne => ?_, fun vs l h1 hvs hsome hne => ?_⟩
  · simp only [TTS.generate_speech]
    rw [if_neg (by simp [hl, hm]), if_neg ht]
    split <;> rfl
  · simp only [TTS.chooseLanguage]
    rw [if_neg (by simp [h1])]
    rcases hvs : req.voice_settings with _ | vs
    · simp [ht]
    · have hv := h2 vs hvs
      simp [hv, ht]
  · simp [TTS.chooseLanguage, TTS.strTruthy, hsome, hne]
  · have hvsl : TTS.strTruthy (some l) = true := by
      simp [TTS.strTruthy, hne]
    simp [TTS.chooseLanguage, h1, hvs, hsome, hvsl]

/-- Witness for `C2_language_selection` on a Russian text with no
language set anywhere in the request. -/
theorem C2_language_selection_witness :
    ((TTS.generate_speech ⟨some 1, false, true⟩ "en"
        ⟨" привет мир ", some ⟨some "default", 1, "neutral", none⟩, "wav",
          none⟩ "abc" true 7).languageUsed =
      some (TTS.chooseLanguage "en"
        ⟨" привет мир ", some ⟨some "default", 1, "neutral", none⟩, "wav",
          none⟩ (pyStrip " привет мир ")))
    ∧ (TTS.strTruthy (none : Option String) = false →
       (∀ vs, (some (⟨some "default", 1, "neutral", none⟩ :
           TTS.VoiceSettings) = some vs) →
         TTS.strTruthy vs.language = false) →
       TTS.chooseLanguage "en"
         ⟨" привет мир ", some ⟨some "default", 1, "neutral", none⟩, "wav",
           none⟩ (pyStrip " привет мир ") =
         (if TTS.rus_count (pyStrip " привет мир ") >
             TTS.eng_count (pyStrip " привет мир ")
          then "ru" else "en"))
    ∧ (∀ l, (none : Option String) = some l → l ≠ "" →
       TTS.chooseLanguage "en"
         ⟨" привет мир ", some ⟨some "default", 1, "neutral", none⟩, "wav",
           none⟩ (pyStrip " привет мир ") = l)
    ∧ (∀ vs l, TTS.strTruthy (none : Option String) = false →
       (some (⟨some "default", 1, "neutral", none⟩ : TTS.VoiceSettings) =
         some vs) → vs.language = some l → l ≠ "" →
       TTS.chooseLanguage "en"
         ⟨" привет мир ", some ⟨some "default", 1, "neutral", none⟩, "wav",
           none⟩ (pyStrip " привет мир ") = l) :=
  C2_language_selection ⟨some 1, false, true⟩ "en"
    ⟨" привет мир ", some ⟨some "default", 1, "neutral", none⟩, "wav", none⟩
    "abc" true 7 rfl (by decide) (by decide)

/-! ## Claim C7 -/

/-- Claim C7: every successful response of `/generate-speech` has
`status = "success"`, an `audio_url` equal to `/audio/` followed by the
generated filename `tts_<uuid>.<audio_format>` — so the extension of the
URL is the requested format — and a `file_size` equal to what the
filesystem reports for the generated file at response time. -/
theorem C7_success_response (s : TTSLoadState) (defaultLang : String)
    (req : TTS.TTSRequestM) (fileId : String) (synthOk : Bool) (sizeAt : Nat)
    (resp : TTS.TTSResponseM)
    (hs : (TTS.generate_speech s defaultLang req fileId synthOk
      sizeAt).outcome = TTS.TTSOutcome.success resp) :
    resp.status = "success"
    ∧ resp.audio_url =
        "/audio/" ++ ("tts_" ++ fileId ++ "." ++ req.audio_format)
    ∧ resp.file_size = sizeAt := by
  simp only [TTS.generate_speech] at hs
  repeat' split at hs
  all_goals dsimp only at hs
  all_goals first
    | (injection hs with h
       subst h
       exact ⟨rfl, rfl, rfl⟩)
    | injection hs

/-- Witness for `C7_success_response` at a concrete successful call. -/
theorem C7_success_response_witness :
    (⟨"/audio/" ++ ("tts_" ++ "abc" ++ "." ++ "wav"),
        some ((pyWordCount (pyStrip " hello ") : ℚ) / 150 * 60), 7,
        "success", "Speech generated successfully"⟩ :
        TTS.TTSResponseM).status = "success"
    ∧ (⟨"/audio/" ++ ("tts_" ++ "abc" ++ "." ++ "wav"),
        some ((pyWordCount (pyStrip " hello ") : ℚ) / 150 * 60), 7,
        "success", "Speech generated successfully"⟩ :
        TTS.TTSResponseM).audio_url =
        "/audio/" ++ ("tts_" ++ "abc" ++ "." ++ "wav")
    ∧ (⟨"/audio/" ++ ("tts_" ++ "abc" ++ "." ++ "wav"),
        some ((pyWordCount (pyStrip " hello ") : ℚ) / 150 * 60), 7,
        "success", "Speech generated successfully"⟩ :
        TTS.TTSResponseM).file_size = 7 :=
  C7_success_response ⟨some 1, false, true⟩ "en"
    ⟨" hello ", some ⟨some "default", 1, "neutral", none⟩, "wav", none⟩
    "abc" true 7
    ⟨"/audio/" ++ ("tts_" ++ "abc" ++ "." ++ "wav"),
      some ((pyWordCount (pyStrip " hello ") : ℚ) / 150 * 60), 7,
      "success", "Speech generated successfully"⟩ (by rfl)

/-! ## Claim C10 -/

/-- Claim C10: `/generate-speech` checks its preconditions before doing
any work — it finishes with HTTP 503 when the model is not loaded
(`model_loaded` false or `tts_model` `None`) and with HTTP 400 when the
text strips to the empty string, and in both rejection cases no output
file is created and the loader globals are untouched (the handler body
never assigns them). -/
theorem C10_preconditions (s : TTSLoadState) (defaultLang : String)
    (req : TTS.TTSRequestM) (fileId : String) (synthOk : Bool)
    (sizeAt : Nat) :
    ((s.model_loaded = false ∨ s.tts_model = none) →
      TTS.generate_speech s defaultLang req fileId synthOk sizeAt =
        ⟨TTS.TTSOutcome.notLoaded503, s, [], none⟩)
    ∧ (s.model_loaded = true → s.tts_model ≠ none → pyStrip req.text = "" →
      TTS.generate_speech s defaultLang req fileId synthOk sizeAt =
        ⟨TTS.TTSOutcome.emptyText400, s, [], none⟩) := by
  constructor
  · intro h
    simp only [TTS.generate_speech]
    rw [if_pos (by rcases h with h | h <;> simp [h])]
  · intro h1 h2 h3
    simp only [TTS.generate_speech]
    rw [if_neg (by simp [h1, h2]), if_pos h3]

/-- Witness for `C10_preconditions`: a call with no model loaded is
rejected with 503, creating nothing and changing nothing. -/
theorem C10_preconditions_witness :
    TTS.generate_speech ⟨none, false, false⟩ "en" ⟨"hi", none, "wav", none⟩
        "id" true 0 =
      ⟨TTS.TTSOutcome.notLoaded503, ⟨none, false, false⟩, [], none⟩ :=
  (C10_preconditions ⟨none, false, false⟩ "en" ⟨"hi", none, "wav", none⟩
    "id" true 0).1 (Or.inl rfl)
